import Mathlib

/-!
# Verification of the agrivaani-backend market-price core

Shallow embedding of `govt_market.py` and `models/marketplace.py`:

* Python `str.lower` / `str.strip` / `str.title` and string membership are
  modelled character-by-character on `List Char` (ASCII-faithful, by
  structural recursion so that concrete instances evaluate in the kernel).
* Python numbers are modelled as `Rat` (`float(x)` on a decimal literal is
  exact for the terminating decimals the claims exercise); `int(x)` is
  truncation toward zero.
* The module-level mutable cache (`_cached_data`, `_last_fetch_date`) is
  explicit state passing over `CacheState`; `datetime.now().date()` is a
  day-number parameter, and the upstream HTTP call is abstracted by a
  `FetchOutcome` input (error, or the decoded record list).
-/

namespace Agrivaani

/-! ## Character-level models of the Python string primitives -/

/-- Model of Python `str.lower()` on the character list (ASCII). -/
def toLowerCL (cs : List Char) : List Char := cs.map Char.toLower

/-- Model of Python `str.strip()`: drop whitespace from both ends. -/
def trimCL (cs : List Char) : List Char :=
  ((cs.dropWhile Char.isWhitespace).reverse.dropWhile Char.isWhitespace).reverse

/-- Auxiliary for `pyTitle`: the `Bool` argument records whether the previous
character was alphabetic (Python `str.title()` semantics). -/
def pyTitleAux : Bool → List Char → List Char
  | _, [] => []
  | prevAlpha, c :: rest =>
    (if c.isAlpha then (if prevAlpha then c.toLower else c.toUpper) else c)
      :: pyTitleAux c.isAlpha rest

/-- Model of Python `str.title()`: first letter of each alphabetic run is
uppercased, the rest lowercased. -/
def pyTitle (s : String) : String := ⟨pyTitleAux false s.data⟩

/-- Model of Python `str.lower()` on `String`. -/
def strLower (s : String) : String := ⟨toLowerCL s.data⟩

/-- Model of Python `str.strip()` on `String`. -/
def strTrim (s : String) : String := ⟨trimCL s.data⟩

/-- `leadsCL n h`: `n` is an initial segment of `h` (used for Python `in`). -/
def leadsCL : List Char → List Char → Bool
  | [], _ => true
  | _ :: _, [] => false
  | a :: as, b :: bs => a == b && leadsCL as bs

/-- `occursIn n h`: model of Python `n in h` substring containment. -/
def occursIn : List Char → List Char → Bool
  | n, [] => leadsCL n []
  | n, b :: bs => leadsCL n (b :: bs) || occursIn n bs

/-- Numeric value of a digit run (most significant first). -/
def digitsVal (cs : List Char) : Nat :=
  cs.foldl (fun a c => a * 10 + (c.toNat - 48)) 0

/-- Model of Python `float(s)` restricted to the decimal literals the code
meets: optional surrounding whitespace, optional sign, digits with an optional
single decimal point (`"1500"`, `"12.5"`, `".5"`, `"5."`); anything else is a
`ValueError`, i.e. `none`. -/
def parseFloatCL (cs : List Char) : Option Rat :=
  let cs₁ := trimCL cs
  let signed : Bool × List Char :=
    match cs₁ with
    | '-' :: r => (true, r)
    | '+' :: r => (false, r)
    | _ => (false, cs₁)
  let ip := signed.2.takeWhile Char.isDigit
  let rest := signed.2.dropWhile Char.isDigit
  let mag : Option Rat :=
    match rest with
    | [] => if ip.isEmpty then none else some (digitsVal ip : Rat)
    | '.' :: frac =>
      if frac.all Char.isDigit && !(ip.isEmpty && frac.isEmpty) then
        some (mkRat (digitsVal ip * 10 ^ frac.length + digitsVal frac : Nat)
          (10 ^ frac.length))
      else none
    | _ => none
  mag.map (fun m => if signed.1 then -m else m)

/-- Model of Python `float(s)` on `String`. -/
def parseFloat (s : String) : Option Rat := parseFloatCL s.data

/-- Model of Python `int(q)` on a float value: truncation toward zero. -/
def truncRat (q : Rat) : Int :=
  if q < 0 then -((-q).floor) else q.floor

/-! ## `govt_market.py` -/

/-- The alias table of `normalize_state_name` (`govt_market.py` lines 18-36). -/
def state_mapping : List (String × String) :=
  [("karnatka", "Karnataka"),
   ("mumbai", "Maharashtra"),
   ("bombay", "Maharashtra"),
   ("delhi", "NCT of Delhi"),
   ("tamilnadu", "Tamil Nadu"),
   ("westbengal", "West Bengal"),
   ("andhrapradesh", "Andhra Pradesh"),
   ("arunachalpradesh", "Arunachal Pradesh"),
   ("madhyapradesh", "Madhya Pradesh"),
   ("uttarpradesh", "Uttar Pradesh"),
   ("uttarakhand", "Uttarakhand"),
   ("tamil nadu", "Tamil Nadu"),
   ("west bengal", "West Bengal"),
   ("andhra pradesh", "Andhra Pradesh"),
   ("arunachal pradesh", "Arunachal Pradesh"),
   ("madhya pradesh", "Madhya Pradesh"),
   ("uttar pradesh", "Uttar Pradesh")]

/-- `normalize_state_name` (`govt_market.py` lines 16-38):
`state_mapping.get(state.lower().strip(), state)`. -/
def normalize_state_name (state : String) : String :=
  (state_mapping.lookup (strTrim (strLower state))).getD state

/-- A raw upstream JSON record as `fetch_govt_prices` reads it: each field is
accessed with `r.get(key, default)`, so every field is optional. -/
structure RawRecord where
  commodity : Option String
  modal_price : Option String
  stateF : Option String
  district : Option String
  market : Option String
deriving DecidableEq

/-- A normalized price record (the dicts built by `govt_market.py`). -/
structure PriceRecord where
  crop : String
  price : Int
  quantity : String
  stateF : String
  district : String
  market : String
  source : String
deriving DecidableEq

/-- Price-field processing on one record (`govt_market.py` line 90):
`int(float(str(r.get("modal_price", "0").replace(',', '')) or 0))`. The comma
strip is a filter; an empty cleaned string falls back to `0` via `or 0`. -/
def parseModalPrice (mp : Option String) : Option Int :=
  let cleaned := (mp.getD "0").data.filter (fun c => c ≠ ',')
  if cleaned.isEmpty then some 0
  else (parseFloatCL cleaned).map truncRat

/-- One iteration of the record loop (`govt_market.py` lines 88-105): `none`
both when the price fails to parse (exception, record skipped) and when the
parsed price is `<= 0` (explicit `continue`). -/
def processRecord (r : RawRecord) : Option PriceRecord :=
  match parseModalPrice r.modal_price with
  | none => none
  | some p =>
    if p ≤ 0 then none
    else some
      { crop := pyTitle (r.commodity.getD "Unknown Crop")
        price := p
        quantity := "1 Quintal"
        stateF := pyTitle (r.stateF.getD "")
        district := pyTitle (r.district.getD "")
        market := pyTitle (r.market.getD "")
        source := "govt" }

/-- The outcome of the upstream HTTP request, abstracting `requests.get`:
either a `RequestException` or a decoded `records` list. -/
inductive FetchOutcome where
  | reqError : FetchOutcome
  | success (records : List RawRecord) : FetchOutcome
deriving DecidableEq

/-- `not DATA_GOV_API_KEY or DATA_GOV_API_KEY == "YOUR_DATA_GOV_API_KEY"`
(`govt_market.py` line 41). -/
def keyInvalid : Option String → Bool
  | none => true
  | some k => k.isEmpty || k == "YOUR_DATA_GOV_API_KEY"

/-- The effective state filter: `if state:` normalizes a truthy state
(line 61-63); a falsy state (`None` or `""`) is treated as absent by the later
`state or default` fallbacks. -/
def effState : Option String → Option String
  | none => none
  | some s => if s.isEmpty then none else some (normalize_state_name s)

/-- The missing-key sample record (`govt_market.py` lines 44-52). -/
def potatoSample : PriceRecord :=
  { crop := "Potato", price := 1500, quantity := "100 kg",
    stateF := "Uttar Pradesh", district := "Agra", market := "Agra Mandi",
    source := "sample" }

/-- The zero-records sample record (`govt_market.py` lines 77-85). -/
def riceSample (st : String) : PriceRecord :=
  { crop := "Rice", price := 2500, quantity := "1 Quintal",
    stateF := st, district := "Sample District", market := "Sample Market",
    source := "sample" }

/-- The all-records-invalid sample record (`govt_market.py` lines 108-116). -/
def wheatSample (st : String) : PriceRecord :=
  { crop := "Wheat", price := 2000, quantity := "1 Quintal",
    stateF := st, district := "Sample District", market := "Sample Market",
    source := "sample" }

/-- The request-error sample record (`govt_market.py` lines 127-135). -/
def tomatoSample (st : String) : PriceRecord :=
  { crop := "Tomato", price := 1500, quantity := "1 Quintal",
    stateF := st, district := "Sample District", market := "Sample Market",
    source := "sample" }

/-- `fetch_govt_prices` (`govt_market.py` lines 40-135). `apiKey` stands for
the environment variable, `outcome` for the HTTP call's result; the `limit`
parameter only shapes the upstream request and is absorbed into `outcome`. -/
def fetch_govt_prices (apiKey : Option String) (st : Option String)
    (outcome : FetchOutcome) : List PriceRecord :=
  if keyInvalid apiKey then [potatoSample]
  else
    match outcome with
    | .reqError => [tomatoSample ((effState st).getD "Karnataka")]
    | .success records =>
      if records.isEmpty then [riceSample ((effState st).getD "Tamil Nadu")]
      else
        let govt_prices := records.filterMap processRecord
        if govt_prices.isEmpty then [wheatSample ((effState st).getD "Punjab")]
        else govt_prices

/-! ## The cache (`get_cached_govt_data`, `govt_market.py` lines 138-147) -/

/-- The module globals `_cached_data` and `_last_fetch_date`; the date is a
day number (`none` models the initial `None`). -/
structure CacheState where
  cachedData : List PriceRecord
  lastFetchDate : Option Nat
deriving DecidableEq

/-- Process start: `_cached_data = []`, `_last_fetch_date = None`. -/
def initialCache : CacheState := ⟨[], none⟩

/-- Python truthiness of the `state` argument (`None` and `""` are falsy). -/
def stateTruthy : Option String → Bool
  | none => false
  | some s => !s.isEmpty

/-- The observable outcome of one `get_cached_govt_data` call: the returned
list, the cache state after the call, and whether `fetch_govt_prices` ran. -/
structure CacheCall where
  result : List PriceRecord
  cache : CacheState
  fetched : Bool
deriving DecidableEq

/-- `get_cached_govt_data` (`govt_market.py` lines 138-147): refetch when
`_last_fetch_date != today or state`, else serve `_cached_data`.
`fetchResult` abstracts what `fetch_govt_prices(state=state, limit=limit)`
would return on this call. -/
def get_cached_govt_data (fetchResult : List PriceRecord) (today : Nat)
    (st : Option String) (σ : CacheState) : CacheCall :=
  if σ.lastFetchDate != some today || stateTruthy st then
    ⟨fetchResult, ⟨fetchResult, some today⟩, true⟩
  else
    ⟨σ.cachedData, σ, false⟩

/-- One call in a multi-call scenario: wall-clock minute of the call, the
`state` argument, and the would-be upstream result. -/
structure CallSpec where
  time : Nat
  stFilter : Option String
  fetchResult : List PriceRecord
deriving DecidableEq

/-- `datetime.now().date()` for a wall clock in minutes: the calendar day. -/
def dayOfMin (t : Nat) : Nat := t / 1440

/-- The trace of a call sequence against the shared cache. -/
structure RunResult where
  results : List (List PriceRecord)
  final : CacheState
  fetchCount : Nat
deriving DecidableEq

/-- Run a sequence of `get_cached_govt_data` calls, counting upstream
fetches. -/
def runCalls : CacheState → List CallSpec → RunResult
  | σ, [] => ⟨[], σ, 0⟩
  | σ, c :: rest =>
    let step := get_cached_govt_data c.fetchResult (dayOfMin c.time) c.stFilter σ
    let r := runCalls step.cache rest
    ⟨step.result :: r.results, r.final, (if step.fetched then 1 else 0) + r.fetchCount⟩

/-! ## `models/marketplace.py` -/

/-- A Python value as it appears in a request body: a string or a number
(Python ints and floats are both modelled as `Rat`). -/
inductive PyVal where
  | vstr (s : String)
  | vnum (q : Rat)
deriving DecidableEq

/-- Python `v.strip()`: succeeds on a string, raises `AttributeError`
(`none`) on a number. -/
def pyStrip : PyVal → Option String
  | .vstr s => some (strTrim s)
  | .vnum _ => none

/-- Python `float(v)`: identity on numbers, decimal parse on strings
(`ValueError` is `none`). -/
def pyFloat : PyVal → Option Rat
  | .vnum q => some q
  | .vstr s => parseFloat s

/-- A stored marketplace listing (the dict built by `add_crop`). -/
structure Listing where
  id : Nat
  crop_name : String
  price_per_kg : Rat
  quantity_kg : Rat
  location : String
  contact : String
  farmer_name : String
  timestamp : String
  source : String
deriving DecidableEq

/-- The request body of the add operation: each known key may be absent. -/
structure CropData where
  crop_name : Option PyVal
  price_per_kg : Option PyVal
  quantity_kg : Option PyVal
  location : Option PyVal
  contact : Option PyVal
  farmer_name : Option PyVal
deriving DecidableEq

/-- `[field for field in required_fields if field not in crop_data]`
(`marketplace.py` line 22), in the order of `required_fields`. -/
def requiredMissing (d : CropData) : List String :=
  (if d.crop_name.isNone then ["crop_name"] else []) ++
  (if d.price_per_kg.isNone then ["price_per_kg"] else []) ++
  (if d.quantity_kg.isNone then ["quantity_kg"] else []) ++
  (if d.location.isNone then ["location"] else []) ++
  (if d.contact.isNone then ["contact"] else [])

/-- Python `', '.join(xs)`. -/
def joinComma : List String → String
  | [] => ""
  | [x] => x
  | x :: xs => x ++ ", " ++ joinComma xs

/-- The value returned by `add_crop`: the success dict with the stored
listing, or the `{'success': False, 'error': str(e)}` dict. -/
inductive AddResult where
  | success (c : Listing)
  | failure (err : String)
deriving DecidableEq

/-- The crop-dict construction (`marketplace.py` lines 26-36); any `none`
is an exception caught by the surrounding `except`. -/
def buildCrop (db : List Listing) (d : CropData) (now : String) : Option Listing := do
  let cnv ← d.crop_name
  let cn ← pyStrip cnv
  let pv ← d.price_per_kg
  let p ← pyFloat pv
  let qv ← d.quantity_kg
  let q ← pyFloat qv
  let lv ← d.location
  let l ← pyStrip lv
  let cv ← d.contact
  let ct ← pyStrip cv
  let fn ← pyStrip (d.farmer_name.getD (.vstr "Local Farmer"))
  pure { id := db.length + 1, crop_name := cn, price_per_kg := p, quantity_kg := q,
         location := l, contact := ct, farmer_name := fn, timestamp := now,
         source := "user" }

/-- `add_crop` (`marketplace.py` lines 7-48): validation, construction,
append; every exception is caught and turned into a failure dict, leaving
`marketplace_db` (threaded explicitly as `db`) untouched. -/
def add_crop (db : List Listing) (d : CropData) (now : String) :
    AddResult × List Listing :=
  match requiredMissing d with
  | [] =>
    match buildCrop db d now with
    | some c => (.success c, db ++ [c])
    | none => (.failure "could not convert value to float", db)
  | m => (.failure ("Missing required fields: " ++ joinComma m), db)

/-! ## Marketplace merge (`get_marketplace_data`, `marketplace.py` lines 50-99) -/

/-- Digits of a natural number, most significant first. -/
def natStrCL (n : Nat) : List Char := Nat.toDigits 10 n

/-- Decimal string of an integer. -/
def intStr (i : Int) : String :=
  if i < 0 then "-" ++ ⟨natStrCL i.natAbs⟩ else ⟨natStrCL i.natAbs⟩

/-- Least exponent `k ≤ 50` with `q * 10^k` integral, i.e. with the
denominator dividing `10^k` (every Python float value has a terminating
decimal expansion, so the bound is never met by a value that arose from a
float). -/
def decExp (q : Rat) : Option Nat :=
  (List.range 51).find? (fun k => (10 ^ k) % q.den == 0)

/-- Model of Python `f"{q}"` for a float-valued `q`: the terminating decimal
expansion, with a trailing `.0` for integral values. -/
def pyFloatStr (q : Rat) : String :=
  match decExp q with
  | none => intStr q.num ++ "/" ++ intStr (q.den : Int)
  | some 0 => intStr q.num ++ ".0"
  | some (k + 1) =>
    let scaled := q.num.natAbs * 10 ^ (k + 1) / q.den
    let ds := natStrCL scaled
    let ds := if ds.length ≤ k + 1 then List.replicate (k + 2 - ds.length) '0' ++ ds else ds
    let ip : String := ⟨ds.take (ds.length - (k + 1))⟩
    let fp : String := ⟨ds.drop (ds.length - (k + 1))⟩
    (if q.num < 0 then "-" else "") ++ ip ++ "." ++ fp

/-- One entry of the combined marketplace view. Government dicts carry no
`contact`/`farmer_name`/`timestamp` keys, hence the `Option` fields
(`x.get('timestamp', '')` on them yields `""`). -/
structure MarketEntry where
  crop : String
  price : Rat
  quantity : String
  stateF : String
  district : String
  market : String
  source : String
  contact : Option String
  farmer_name : Option String
  timestamp : Option String
deriving DecidableEq

/-- A government `PriceRecord` viewed as a combined-list entry. -/
def priceToEntry (p : PriceRecord) : MarketEntry :=
  ⟨p.crop, (p.price : Rat), p.quantity, p.stateF, p.district, p.market,
   p.source, none, none, none⟩

/-- The user-listing reformat (`marketplace.py` lines 67-78). -/
def formatUser (item : Listing) : MarketEntry :=
  { crop := item.crop_name
    price := item.price_per_kg
    quantity := pyFloatStr item.quantity_kg ++ " kg"
    stateF := item.location
    district := "Local"
    market := "Local Market"
    source := "user"
    contact := some item.contact
    farmer_name := some item.farmer_name
    timestamp := some item.timestamp }

/-- The state filter on user listings (`marketplace.py` line 64):
`state and state.lower() not in item['location'].lower()` skips; a falsy
`state` (absent or `""`) keeps every listing. -/
def userMatches (st : Option String) (item : Listing) : Bool :=
  match st with
  | none => true
  | some s =>
    if s.isEmpty then true
    else occursIn (toLowerCL s.data) (toLowerCL item.location.data)

/-- Python string `<=` by code points, on character lists. -/
def keyLeB : List Char → List Char → Bool
  | [], _ => true
  | _ :: _, [] => false
  | a :: as, b :: bs =>
    if a.toNat < b.toNat then true
    else if b.toNat < a.toNat then false
    else keyLeB as bs

theorem keyLeB_total : ∀ as bs : List Char, keyLeB as bs = true ∨ keyLeB bs as = true
  | [], _ => Or.inl rfl
  | _ :: _, [] => Or.inr rfl
  | a :: as, b :: bs => by
    rcases Nat.lt_trichotomy a.toNat b.toNat with h | h | h
    · exact Or.inl (by simp [keyLeB, h])
    · have := keyLeB_total as bs
      rcases this with h' | h'
      · exact Or.inl (by simp [keyLeB, h, h'])
      · exact Or.inr (by simp [keyLeB, h, h'])
    · exact Or.inr (by simp [keyLeB, h])

theorem keyLeB_cons_iff (a b : Char) (as bs : List Char) :
    keyLeB (a :: as) (b :: bs) = true ↔
      a.toNat < b.toNat ∨ (a.toNat = b.toNat ∧ keyLeB as bs = true) := by
  simp only [keyLeB]
  by_cases h1 : a.toNat < b.toNat
  · simp [h1]
  · by_cases h2 : b.toNat < a.toNat
    · simp [h1, h2]; omega
    · have h3 : a.toNat = b.toNat := by omega
      simp [h1, h2, h3]

theorem keyLeB_trans : ∀ as bs cs : List Char,
    keyLeB as bs = true → keyLeB bs cs = true → keyLeB as cs = true
  | [], _, _, _, _ => rfl
  | _ :: _, [], _, h, _ => by simp [keyLeB] at h
  | _ :: _, _ :: _, [], _, h => by simp [keyLeB] at h
  | a :: as, b :: bs, c :: cs, hab, hbc => by
    rw [keyLeB_cons_iff] at hab hbc ⊢
    rcases hab with h | ⟨h, hab'⟩ <;> rcases hbc with h' | ⟨h', hbc'⟩
    · exact Or.inl (by omega)
    · exact Or.inl (by omega)
    · exact Or.inl (by omega)
    · exact Or.inr ⟨by omega, keyLeB_trans as bs cs hab' hbc'⟩

/-- The sort key `x.get('timestamp', '')` (`marketplace.py` line 82), as a
character list. -/
def sortKey (e : MarketEntry) : List Char := (e.timestamp.getD "").data

/-- `a` may precede `b` in the `reverse=True` timestamp sort: descending by
key, with ties broken by original position (Python `list.sort` is stable). -/
def entryGE (a b : MarketEntry) : Prop := keyLeB (sortKey b) (sortKey a) = true

instance : DecidableRel entryGE :=
  fun a b => inferInstanceAs (Decidable (keyLeB (sortKey b) (sortKey a) = true))

instance : IsTotal MarketEntry entryGE :=
  ⟨fun a b => (keyLeB_total (sortKey b) (sortKey a)).imp id id⟩

instance : IsTrans MarketEntry entryGE :=
  ⟨fun _ _ _ hab hbc => keyLeB_trans _ _ _ hbc hab⟩

/-- `get_marketplace_data` (`marketplace.py` lines 50-99): the cached
government data (already fetched; passed here as `govt`), the filtered and
reformatted user listings, a stable descending timestamp sort
(`list.sort(key=..., reverse=True)` is modelled by insertion sort with
`entryGE`, which is stable and descending), and the `[:limit]` truncation. -/
def get_marketplace_data (govt : List MarketEntry) (db : List Listing)
    (st : Option String) (limit : Nat) : List MarketEntry :=
  let user_data := (db.filter (userMatches st)).map formatUser
  let all_data := govt ++ user_data
  (List.insertionSort entryGE all_data).take limit

/-! ## Helper lemmas -/

theorem processRecord_price_pos {r : RawRecord} {pr : PriceRecord}
    (h : processRecord r = some pr) : 0 < pr.price := by
  unfold processRecord at h
  cases hp : parseModalPrice r.modal_price with
  | none => rw [hp] at h; cases h
  | some p =>
    rw [hp] at h
    dsimp only at h
    by_cases hle : p ≤ 0
    · rw [if_pos hle] at h; cases h
    · rw [if_neg hle] at h
      cases h
      exact not_le.mp hle

theorem fetch_member_price_pos {k : Option String} {st : Option String}
    {o : FetchOutcome} {r : PriceRecord}
    (hr : r ∈ fetch_govt_prices k st o) : 0 < r.price := by
  unfold fetch_govt_prices at hr
  split at hr
  · simp at hr; subst hr; decide
  · match o with
    | .reqError => simp at hr; subst hr; exact (by decide : (0 : Int) < 1500)
    | .success records =>
      simp only at hr
      split at hr
      · simp at hr; subst hr; exact (by decide : (0 : Int) < 2500)
      · split at hr
        · simp at hr; subst hr; exact (by decide : (0 : Int) < 2000)
        · obtain ⟨a, _, ha⟩ := List.mem_filterMap.mp hr
          exact processRecord_price_pos ha

theorem stateTruthy_some {s : String} (hs : s ≠ "") : stateTruthy (some s) = true := by
  unfold stateTruthy
  cases h : s.isEmpty with
  | false => simp [h]
  | true => exact absurd ((String.isEmpty_iff s).mp h) hs

theorem get_cached_fetches (L : List PriceRecord) (d : Nat) (st : Option String)
    (σ : CacheState) (h : stateTruthy st = true) :
    get_cached_govt_data L d st σ = ⟨L, ⟨L, some d⟩, true⟩ := by
  unfold get_cached_govt_data
  rw [h, Bool.or_true, if_pos rfl]

theorem get_cached_serves_cache (L : List PriceRecord) (d : Nat) (st : Option String)
    (σ : CacheState) (h1 : σ.lastFetchDate = some d) (h2 : stateTruthy st = false) :
    get_cached_govt_data L d st σ = ⟨σ.cachedData, σ, false⟩ := by
  unfold get_cached_govt_data
  rw [h1, h2]
  simp

theorem get_cached_stale_fetches (L : List PriceRecord) (d : Nat) (st : Option String)
    (σ : CacheState) (h1 : σ.lastFetchDate ≠ some d) :
    get_cached_govt_data L d st σ = ⟨L, ⟨L, some d⟩, true⟩ := by
  unfold get_cached_govt_data
  rw [bne_iff_ne.mpr h1, Bool.true_or, if_pos rfl]

theorem buildCrop_id {db : List Listing} {d : CropData} {now : String}
    {c : Listing} (h : buildCrop db d now = some c) : c.id = db.length + 1 := by
  simp only [buildCrop, Bind.bind, Option.bind_eq_some, pure, Option.some.injEq] at h
  obtain ⟨a1, h1, a2, h2, a3, h3, a4, h4, a5, h5, a6, h6, a7, h7, a8, h8, a9, h9,
    a10, h10, a11, h11, hc⟩ := h
  subst hc
  rfl

theorem add_crop_success_spec {db db' : List Listing} {d : CropData} {now : String}
    {c : Listing} (h : add_crop db d now = (.success c, db')) :
    c.id = db.length + 1 ∧ db' = db ++ [c] := by
  unfold add_crop at h
  split at h
  · split at h
    · rename_i c0 hc0
      obtain ⟨h1, h2⟩ := Prod.mk.injEq .. ▸ h
      obtain rfl : c0 = c := by exact AddResult.success.inj h1
      exact ⟨buildCrop_id hc0, h2.symm⟩
    · cases h
  · cases h

end Agrivaani

namespace Agrivaani

/-! ## Claim theorems -/

/-- C6: `normalize_state_name` returns the canonical state name when the
lowercased, whitespace-trimmed input matches a supported alias, and returns
the input unchanged (original case and whitespace preserved) when no mapping
exists; in particular `karnatka ↦ Karnataka`, `mumbai ↦ Maharashtra`,
`tamilnadu ↦ Tamil Nadu`, and unmapped strings pass through. -/
theorem normalize_state_name_spec :
    (∀ s c : String, state_mapping.lookup (strTrim (strLower s)) = some c →
        normalize_state_name s = c) ∧
    (∀ s : String, state_mapping.lookup (strTrim (strLower s)) = none →
        normalize_state_name s = s) ∧
    normalize_state_name "karnatka" = "Karnataka" ∧
    normalize_state_name "mumbai" = "Maharashtra" ∧
    normalize_state_name "tamilnadu" = "Tamil Nadu" ∧
    normalize_state_name " MUMBAI " = "Maharashtra" ∧
    normalize_state_name "Goa" = "Goa" := by
  refine ⟨?_, ?_, ?_, ?_, ?_, ?_, ?_⟩
  · intro s c h; unfold normalize_state_name; rw [h]; rfl
  · intro s h; unfold normalize_state_name; rw [h]; rfl
  all_goals decide

/-- Witness for C6: the alias branch at `"bombay"` and the pass-through
branch at `"Pune"`. -/
theorem normalize_state_name_spec_witness :
    normalize_state_name "bombay" = "Maharashtra" ∧
    normalize_state_name "Pune" = "Pune" :=
  ⟨normalize_state_name_spec.1 "bombay" "Maharashtra" (by decide),
   normalize_state_name_spec.2.1 "Pune" (by decide)⟩

/-- C3: `fetch_govt_prices` never returns an empty sequence; with the API key
absent, empty or equal to the sentinel `"YOUR_DATA_GOV_API_KEY"` it returns
the single hard-coded Potato sample; on a request error the Tomato sample; on
a zero-record response the Rice sample labeled with the (normalized) requested
state or the default; all fallback records carry `source = "sample"`. -/
theorem fetch_govt_prices_fallback :
    (∀ (k st : Option String) (o : FetchOutcome), 0 < (fetch_govt_prices k st o).length) ∧
    (∀ (st : Option String) (o : FetchOutcome), fetch_govt_prices none st o = [potatoSample]) ∧
    (∀ (st : Option String) (o : FetchOutcome),
      fetch_govt_prices (some "") st o = [potatoSample]) ∧
    (∀ (st : Option String) (o : FetchOutcome),
      fetch_govt_prices (some "YOUR_DATA_GOV_API_KEY") st o = [potatoSample]) ∧
    (∀ st : Option String, fetch_govt_prices (some "key123") st .reqError =
      [tomatoSample ((effState st).getD "Karnataka")]) ∧
    (∀ st : Option String, fetch_govt_prices (some "key123") st (.success []) =
      [riceSample ((effState st).getD "Tamil Nadu")]) ∧
    potatoSample.source = "sample" ∧
    (∀ s, (tomatoSample s).source = "sample" ∧ (riceSample s).source = "sample" ∧
      (wheatSample s).source = "sample") := by
  refine ⟨?_, fun _ _ => rfl, fun _ _ => rfl, fun _ _ => rfl, fun _ => rfl,
    fun _ => rfl, rfl, fun _ => ⟨rfl, rfl, rfl⟩⟩
  intro k st o
  unfold fetch_govt_prices
  split
  · simp
  · cases o with
    | reqError => simp
    | success records =>
      dsimp only
      split
      · simp
      · split
        · simp
        · rename_i hne
          exact List.length_pos.mpr (fun hnil => hne (by simp [hnil]))

/-- C4: on an upstream response holding the single Potato record with
`modal_price = "1,500"`, the fetcher returns exactly one record with the
comma-stripped integer price `1500`, title-cased commodity and location
fields, the fixed quantity label and `source = "govt"`. -/
theorem fetch_govt_prices_potato_example :
    fetch_govt_prices (some "key123") none
        (.success [⟨some "Potato", some "1,500", some "UP", some "Agra",
          some "Agra Mandi"⟩]) =
      [⟨"Potato", 1500, "1 Quintal", "Up", "Agra", "Agra Mandi", "govt"⟩] := by
  decide

end Agrivaani

namespace Agrivaani

/-- C5: every record `fetch_govt_prices` returns has a positive price; a
record whose modal price fails to parse or is non-positive is discarded by
the record loop and contributes nothing to the result; and when every
upstream record is discarded the Wheat fallback (price 2000 > 0) is
returned. -/
theorem fetch_govt_prices_price_positive :
    (∀ (k st : Option String) (o : FetchOutcome),
      (fetch_govt_prices k st o).all (fun r => decide (0 < r.price)) = true) ∧
    (∀ r : RawRecord, parseModalPrice r.modal_price = none → processRecord r = none) ∧
    (∀ (r : RawRecord) (p : Int), parseModalPrice r.modal_price = some p → p ≤ 0 →
      processRecord r = none) ∧
    (∀ r : RawRecord, processRecord r = none → ∀ pre post : List RawRecord,
      (pre ++ r :: post).filterMap processRecord =
        (pre ++ post).filterMap processRecord) ∧
    (∀ (st : Option String) (records : List RawRecord), records ≠ [] →
      (∀ r ∈ records, processRecord r = none) →
      fetch_govt_prices (some "key123") st (.success records) =
        [wheatSample ((effState st).getD "Punjab")]) := by
  refine ⟨?_, ?_, ?_, ?_, ?_⟩
  · intro k st o
    rw [List.all_eq_true]
    intro r hr
    exact decide_eq_true (fetch_member_price_pos hr)
  · intro r h
    simp [processRecord, h]
  · intro r p h hle
    simp [processRecord, h, hle]
  · intro r h pre post
    simp [List.filterMap_append, List.filterMap_cons, h]
  · intro st records hne hall
    unfold fetch_govt_prices
    rw [if_neg (by decide : ¬ (keyInvalid (some "key123") = true))]
    dsimp only
    rw [if_neg (fun hh => hne (List.isEmpty_iff.mp hh))]
    have hnil : records.filterMap processRecord = [] := List.filterMap_eq_nil_iff.mpr hall
    rw [hnil]
    rfl

/-- Witness for C5: a non-numeric modal price (`"abc"`) and a zero modal
price are both discarded, discarding is invisible to the surviving records,
and an all-invalid response yields the Wheat fallback. -/
theorem fetch_govt_prices_price_positive_witness :
    processRecord ⟨some "Onion", some "abc", none, none, none⟩ = none ∧
    processRecord ⟨some "Onion", some "0", none, none, none⟩ = none ∧
    ([(⟨some "Potato", some "1,500", none, none, none⟩ : RawRecord)] ++
        (⟨some "Onion", some "abc", none, none, none⟩ : RawRecord) :: []).filterMap
          processRecord =
      ([(⟨some "Potato", some "1,500", none, none, none⟩ : RawRecord)] ++ []).filterMap
        processRecord ∧
    fetch_govt_prices (some "key123") none
        (.success [⟨some "Onion", some "abc", none, none, none⟩]) =
      [wheatSample "Punjab"] :=
  ⟨fetch_govt_prices_price_positive.2.1 _ (by decide),
   fetch_govt_prices_price_positive.2.2.1 _ 0 (by decide) (by decide),
   fetch_govt_prices_price_positive.2.2.2.1 _ (by decide) _ _,
   fetch_govt_prices_price_positive.2.2.2.2 none _ (by decide)
     (by intro r hr; rw [List.mem_singleton] at hr; subst hr; decide)⟩

/-- C1 counterexample: three no-filter calls at minutes 0, 20 and 40 of the
same day. The claim's 30-minute window demands a second upstream fetch at the
third call (40 > 30 minutes after the first fetch), but the code's
calendar-day staleness check issues exactly one fetch for all three calls. -/
theorem cache_thirty_minute_window_cex :
    (runCalls initialCache
        [⟨0, none, [potatoSample]⟩, ⟨20, none, [potatoSample]⟩,
         ⟨40, none, [potatoSample]⟩]).fetchCount = 1 ∧
    30 < 40 - 0 := by decide

/-- C1 amended: the staleness window is the calendar day, not 30 minutes.
Starting from the initial cache, two no-filter calls on the same day issue
exactly one upstream fetch and the second call returns the first call's data
unchanged; a third call on a different day issues a second fetch. -/
theorem cache_calendar_day_window (L1 L2 L3 : List PriceRecord) (t1 t2 t3 : Nat)
    (h12 : dayOfMin t1 = dayOfMin t2) (h23 : dayOfMin t2 ≠ dayOfMin t3) :
    runCalls initialCache [⟨t1, none, L1⟩, ⟨t2, none, L2⟩, ⟨t3, none, L3⟩] =
      ⟨[L1, L1, L3], ⟨L3, some (dayOfMin t3)⟩, 2⟩ := by
  simp only [runCalls]
  rw [get_cached_stale_fetches _ _ _ _ (by simp [initialCache])]
  dsimp only
  rw [h12, get_cached_serves_cache L2 (dayOfMin t2) none ⟨L1, some (dayOfMin t2)⟩ rfl
    (rfl : stateTruthy none = false)]
  dsimp only
  rw [get_cached_stale_fetches _ _ _ _ (by simpa using h23)]
  rfl

/-- Witness for C1 amended: calls at minutes 0 and 20 (day 0) and minute 1441
(day 1). -/
theorem cache_calendar_day_window_witness :
    runCalls initialCache
        [⟨0, none, [potatoSample]⟩, ⟨20, none, [potatoSample]⟩,
         ⟨1441, none, [riceSample "Kerala"]⟩] =
      ⟨[[potatoSample], [potatoSample], [riceSample "Kerala"]],
        ⟨[riceSample "Kerala"], some 1⟩, 2⟩ :=
  cache_calendar_day_window [potatoSample] [potatoSample] [riceSample "Kerala"]
    0 20 1441 (by decide) (by decide)

/-- C2: a call with a non-empty state filter always runs the upstream fetch
and returns its result directly, whatever the cache's age or contents. -/
theorem cache_state_filter_always_fetches (L : List PriceRecord) (d : Nat)
    (s : String) (σ : CacheState) (hs : s ≠ "") :
    get_cached_govt_data L d (some s) σ = ⟨L, ⟨L, some d⟩, true⟩ :=
  get_cached_fetches L d (some s) σ (stateTruthy_some hs)

/-- Witness for C2: the cache is fresh (same day) and non-empty, yet the
state-filtered call still fetches. -/
theorem cache_state_filter_always_fetches_witness :
    get_cached_govt_data [riceSample "Kerala"] 7 (some "Karnataka")
        ⟨[potatoSample], some 7⟩ =
      ⟨[riceSample "Kerala"], ⟨[riceSample "Kerala"], some 7⟩, true⟩ :=
  cache_state_filter_always_fetches _ 7 "Karnataka" _ (by decide)

/-- C9: a state-filtered call is not cache-neutral: it overwrites the shared
cached list with the state-filtered fetch result and sets the last-fetch date
to today, so a following no-filter call on the same day serves those
state-filtered records from the cache without fetching. -/
theorem cache_state_filter_overwrites (L L2 : List PriceRecord) (d : Nat)
    (s : String) (σ : CacheState) (hs : s ≠ "") :
    (get_cached_govt_data L d (some s) σ).cache = ⟨L, some d⟩ ∧
    get_cached_govt_data L2 d none (get_cached_govt_data L d (some s) σ).cache =
      ⟨L, ⟨L, some d⟩, false⟩ := by
  rw [get_cached_fetches L d (some s) σ (stateTruthy_some hs)]
  exact ⟨rfl, get_cached_serves_cache L2 d none ⟨L, some d⟩ rfl
    (rfl : stateTruthy none = false)⟩

/-- Witness for C9: after a `"Karnataka"`-filtered call on day 3, the
no-filter call on day 3 returns the Karnataka-filtered data without
fetching. -/
theorem cache_state_filter_overwrites_witness :
    (get_cached_govt_data [riceSample "Goa"] 3 (some "Karnataka")
        ⟨[potatoSample], some 2⟩).cache = ⟨[riceSample "Goa"], some 3⟩ ∧
    get_cached_govt_data [potatoSample] 3 none
        (get_cached_govt_data [riceSample "Goa"] 3 (some "Karnataka")
          ⟨[potatoSample], some 2⟩).cache =
      ⟨[riceSample "Goa"], ⟨[riceSample "Goa"], some 3⟩, false⟩ :=
  cache_state_filter_overwrites _ _ 3 "Karnataka" _ (by decide)

end Agrivaani

namespace Agrivaani

/-- C7 counterexample: the claim requires the five fields to be present *and
non-empty*, but `add_crop` only checks presence (`field in crop_data`): an
add whose `contact` is the empty string succeeds instead of failing. -/
theorem add_crop_empty_contact_cex :
    (add_crop [] ⟨some (.vstr "Tomato"), some (.vnum 10), some (.vnum 5),
        some (.vstr "Pune"), some (.vstr ""), none⟩ "2024-01-01").1 =
      .success ⟨1, "Tomato", 10, 5, "Pune", "", "Local Farmer", "2024-01-01", "user"⟩ := by
  decide

/-- C7 amended: `add_crop` requires `crop_name`, `price_per_kg`,
`quantity_kg`, `location` and `contact` to be *present* (empty values are
accepted), failing with a validation error naming the missing fields
otherwise — in particular omitting `contact` fails naming `contact` — and on
success assigns sequential 1-based ids: from an empty store the first
successful add has id 1 and the next id 2. -/
theorem add_crop_validation_and_ids :
    (∀ (db : List Listing) (d : CropData) (now : String), requiredMissing d ≠ [] →
      add_crop db d now =
        (.failure ("Missing required fields: " ++ joinComma (requiredMissing d)), db)) ∧
    (∀ (db : List Listing) (d : CropData) (now : String),
      d.contact = none → d.crop_name.isSome = true → d.price_per_kg.isSome = true →
      d.quantity_kg.isSome = true → d.location.isSome = true →
      add_crop db d now = (.failure "Missing required fields: contact", db)) ∧
    (∀ (d1 d2 : CropData) (now1 now2 : String) (c1 c2 : Listing)
        (db1 db2 : List Listing),
      add_crop [] d1 now1 = (.success c1, db1) →
      add_crop db1 d2 now2 = (.success c2, db2) →
      c1.id = 1 ∧ c2.id = 2 ∧ db1 = [c1] ∧ db2 = [c1, c2]) := by
  have gen : ∀ (db : List Listing) (d : CropData) (now : String),
      requiredMissing d ≠ [] →
      add_crop db d now =
        (.failure ("Missing required fields: " ++ joinComma (requiredMissing d)), db) := by
    intro db d now h
    rcases hm : requiredMissing d with _ | ⟨x, xs⟩
    · exact absurd hm h
    · simp [add_crop, hm]
  refine ⟨gen, ?_, ?_⟩
  · intro db d now hct h1 h2 h3 h4
    obtain ⟨a1, e1⟩ := Option.isSome_iff_exists.mp h1
    obtain ⟨a2, e2⟩ := Option.isSome_iff_exists.mp h2
    obtain ⟨a3, e3⟩ := Option.isSome_iff_exists.mp h3
    obtain ⟨a4, e4⟩ := Option.isSome_iff_exists.mp h4
    have hm : requiredMissing d = ["contact"] := by
      unfold requiredMissing
      rw [hct, e1, e2, e3, e4]
      rfl
    rw [gen db d now (by rw [hm]; exact (by decide)), hm]
    simp only [Prod.mk.injEq]
    exact ⟨by decide, trivial⟩
  · intro d1 d2 now1 now2 c1 c2 db1 db2 ha hb
    obtain ⟨i1, e1⟩ := add_crop_success_spec ha
    obtain ⟨i2, e2⟩ := add_crop_success_spec hb
    subst e1
    subst e2
    exact ⟨by simpa using i1, by simpa using i2, by simp, by simp⟩

/-- Witness for C7 amended: a concrete add missing four fields, a concrete
add missing only `contact`, and two concrete successful adds from the empty
store receiving ids 1 and 2. -/
theorem add_crop_validation_and_ids_witness :
    add_crop [] ⟨some (.vstr "Rice"), none, none, none, none, none⟩ "t" =
      (.failure ("Missing required fields: " ++
        joinComma (requiredMissing ⟨some (.vstr "Rice"), none, none, none, none, none⟩)),
       []) ∧
    add_crop [] ⟨some (.vstr "Rice"), some (.vnum 20), some (.vnum 100),
        some (.vstr "Chennai"), none, none⟩ "t" =
      (.failure "Missing required fields: contact", []) ∧
    ((⟨1, "Rice", 20, 100, "Chennai", "9", "Local Farmer", "t1", "user"⟩ : Listing).id = 1 ∧
     (⟨2, "Rice", 20, 100, "Chennai", "9", "Local Farmer", "t2", "user"⟩ : Listing).id = 2 ∧
     ([(⟨1, "Rice", 20, 100, "Chennai", "9", "Local Farmer", "t1", "user"⟩ : Listing)] =
       [⟨1, "Rice", 20, 100, "Chennai", "9", "Local Farmer", "t1", "user"⟩]) ∧
     ([(⟨1, "Rice", 20, 100, "Chennai", "9", "Local Farmer", "t1", "user"⟩ : Listing),
       ⟨2, "Rice", 20, 100, "Chennai", "9", "Local Farmer", "t2", "user"⟩] =
       [⟨1, "Rice", 20, 100, "Chennai", "9", "Local Farmer", "t1", "user"⟩,
        ⟨2, "Rice", 20, 100, "Chennai", "9", "Local Farmer", "t2", "user"⟩])) :=
  ⟨add_crop_validation_and_ids.1 [] _ "t" (by decide),
   add_crop_validation_and_ids.2.1 [] _ "t" rfl (by decide) (by decide) (by decide)
     (by decide),
   add_crop_validation_and_ids.2.2
     ⟨some (.vstr "Rice"), some (.vnum 20), some (.vnum 100), some (.vstr "Chennai"),
       some (.vstr "9"), none⟩
     ⟨some (.vstr "Rice"), some (.vnum 20), some (.vnum 100), some (.vstr "Chennai"),
       some (.vstr "9"), none⟩
     "t1" "t2" _ _ _ _ (by decide) (by decide)⟩

/-- C10: `add_crop` is total and atomic on failure: for every input it
returns either a failure result with the listing store unchanged, or a
success result appending exactly the new listing (so no id is consumed on
failure; the caught-exception branches are the `none` cases of the model). -/
theorem add_crop_total_atomic :
    ∀ (db : List Listing) (d : CropData) (now : String),
      (∃ e, add_crop db d now = (.failure e, db)) ∨
      (∃ c, add_crop db d now = (.success c, db ++ [c])) := by
  intro db d now
  unfold add_crop
  split
  · split
    · exact Or.inr ⟨_, rfl⟩
    · exact Or.inl ⟨_, rfl⟩
  · exact Or.inl ⟨_, rfl⟩

end Agrivaani

namespace Agrivaani

/-- C8: `get_marketplace_data` returns the upstream cache result combined
with exactly those user listings whose location contains the state query as
a case-insensitive substring (all listings when no state is given), sorted
by timestamp descending (stable, government entries keyed `""`), truncated
to at most `limit` entries: the output length is bounded by `limit`, the
output is sorted, every entry is a government entry or a formatted matching
listing, and when `limit` does not truncate the output is a permutation of
the government data concatenated with the formatted matching listings. -/
theorem get_marketplace_data_spec :
    ∀ (govt : List MarketEntry) (db : List Listing) (st : Option String) (limit : Nat),
      (get_marketplace_data govt db st limit).length ≤ limit ∧
      List.Sorted entryGE (get_marketplace_data govt db st limit) ∧
      (∀ e ∈ get_marketplace_data govt db st limit,
        e ∈ govt ∨ ∃ item ∈ db, userMatches st item = true ∧ e = formatUser item) ∧
      ((govt ++ (db.filter (userMatches st)).map formatUser).length ≤ limit →
        (get_marketplace_data govt db st limit).Perm
          (govt ++ (db.filter (userMatches st)).map formatUser)) ∧
      (∀ item : Listing, userMatches none item = true) := by
  intro govt db st limit
  refine ⟨?_, ?_, ?_, ?_, fun _ => rfl⟩
  · exact List.length_take_le _ _
  · exact (List.sorted_insertionSort entryGE _).sublist (List.take_sublist _ _)
  · intro e he
    have he2 : e ∈ List.insertionSort entryGE
        (govt ++ (db.filter (userMatches st)).map formatUser) :=
      List.take_subset _ _ he
    have he3 : e ∈ govt ++ (db.filter (userMatches st)).map formatUser :=
      (List.perm_insertionSort _ _).subset he2
    rcases List.mem_append.mp he3 with h | h
    · exact Or.inl h
    · obtain ⟨item, hi, rfl⟩ := List.mem_map.mp h
      obtain ⟨hidb, hmatch⟩ := List.mem_filter.mp hi
      exact Or.inr ⟨item, hidb, hmatch, rfl⟩
  · intro hlen
    unfold get_marketplace_data
    rw [List.take_of_length_le (by rw [List.length_insertionSort]; exact hlen)]
    exact List.perm_insertionSort _ _

/-- Witness for C8: with one government entry and one listing located in
`"Chennai, Tamil Nadu"`, the query `"tamil nadu"` keeps the listing; the
untruncated result is a permutation of the concatenation, and the formatted
listing is accounted for by the membership characterization. -/
theorem get_marketplace_data_spec_witness :
    (get_marketplace_data [priceToEntry potatoSample]
        [⟨1, "Rice", 20, 100, "Chennai, Tamil Nadu", "9", "F", "2024-01-02", "user"⟩]
        (some "tamil nadu") 100).Perm
      ([priceToEntry potatoSample] ++
        (([(⟨1, "Rice", 20, 100, "Chennai, Tamil Nadu", "9", "F", "2024-01-02",
            "user"⟩ : Listing)].filter (userMatches (some "tamil nadu"))).map formatUser)) ∧
    (formatUser ⟨1, "Rice", 20, 100, "Chennai, Tamil Nadu", "9", "F", "2024-01-02", "user"⟩ ∈
        [priceToEntry potatoSample] ∨
      ∃ item ∈ [(⟨1, "Rice", 20, 100, "Chennai, Tamil Nadu", "9", "F", "2024-01-02",
          "user"⟩ : Listing)],
        userMatches (some "tamil nadu") item = true ∧
        formatUser ⟨1, "Rice", 20, 100, "Chennai, Tamil Nadu", "9", "F", "2024-01-02",
          "user"⟩ = formatUser item) :=
  ⟨(get_marketplace_data_spec [priceToEntry potatoSample]
      [⟨1, "Rice", 20, 100, "Chennai, Tamil Nadu", "9", "F", "2024-01-02", "user"⟩]
      (some "tamil nadu") 100).2.2.2.1 (by decide),
   (get_marketplace_data_spec [priceToEntry potatoSample]
      [⟨1, "Rice", 20, 100, "Chennai, Tamil Nadu", "9", "F", "2024-01-02", "user"⟩]
      (some "tamil nadu") 100).2.2.1
     (formatUser ⟨1, "Rice", 20, 100, "Chennai, Tamil Nadu", "9", "F", "2024-01-02",
       "user"⟩) (by decide)⟩

end Agrivaani
